import Mathlib

/-!
# StarkBot register system: verified model

A shallow embedding of the session-scoped register store, validators,
guard policy, preset resolver, tool gate and session-lane manager of the
StarkBot agent core.  The repository ships the design documents
(PLAN-register-system.md, PLAN-register-system-v2.md,
OPENCLAW_AUDIT_AND_UPGRADE_PLAN.md), the skill configuration files
(skills/swap.md, skills/transfer.md) and the architecture guidelines, but
the Rust implementation files they describe (src/tools/register.rs,
src/tools/builtin/register_set.rs, src/tools/builtin/x402_fetch.rs,
src/tools/builtin/web3_tx.rs, src/execution/session_lanes.rs) are not part
of the snapshot.  The executable definitions below are therefore modelled
from the specification and the design documents, with the static
configuration (guarded register keys, preset catalog, skill parameter
shapes) taken verbatim from the skill and plan files.
-/

namespace StarkBot

/-- A minimal JSON value, as carried by tool parameters and register
entries (the design documents use jq-filtered JSON results such as the
swap quote object with fields to, data, value, gas). -/
inductive Jval where
  | null : Jval
  | bool (b : Bool) : Jval
  | num (n : Int) : Jval
  | str (s : String) : Jval
  | arr (xs : List Jval) : Jval
  | obj (fields : List (String × Jval)) : Jval

/-- Modelled from the spec: the tagged value union stored in a register —
a plain string, an integer string (smallest-unit amount), or a JSON
object (pre-built transaction data, quote results). -/
inductive Value where
  | str (s : String) : Value
  | intStr (s : String) : Value
  | json (j : Jval) : Value

/-- Modelled from the spec: a register entry with write-origin metadata
(RegisterEntry of the data model; the plan's RegisterStore "includes
metadata (source tool, timestamp)"). -/
structure RegisterEntry where
  key : String
  value : Value
  origin_tool : String
  written_at : Nat

/-- Modelled from the spec: the session-scoped register store.  The
newest write is at the head; lookup takes the first match, so the head
entry for a key is the current one (last write wins). -/
def RegisterStore := List RegisterEntry

/-- The empty register store of a freshly created session. -/
def RegisterStore.empty : RegisterStore := []

/-- Current entry for a key, or none (spec 4.1, get). -/
def RegisterStore.get (s : RegisterStore) (k : String) : Option RegisterEntry :=
  List.find? (fun e => e.key == k) s

/-- Spec 4.1, clear: empties the store at session teardown. -/
def RegisterStore.clear (_ : RegisterStore) : RegisterStore := []

/-- Hexadecimal digit test used by the address validator. -/
def isHexChar (c : Char) : Bool :=
  c.isDigit || ('a' ≤ c && c ≤ 'f') || ('A' ≤ c && c ≤ 'F')

/-- Modelled from the spec: address validator — a fixed-length
0x-prefixed 40-hex-digit string (spec 4.2).  Stated over the character
list of the string. -/
def isAddressString (s : String) : Bool :=
  s.data.length == 42 && s.data.take 2 == ['0', 'x'] && (s.data.drop 2).all isHexChar

/-- Maximum digit length accepted by the amount validator, guarding
against overflow/scientific-notation injection (spec 4.2). -/
def maxAmountDigits : Nat := 78

/-- Modelled from the spec: amount validator — non-empty base-10 digit
string of bounded length (spec 4.2). -/
def isAmountString (s : String) : Bool :=
  !s.data.isEmpty && s.data.all Char.isDigit && s.data.length ≤ maxAmountDigits

/-- Modelled from the spec: key-name charset check — alphanumeric plus
underscore, non-empty (spec 4.1). -/
def validKeyName (k : String) : Bool :=
  !k.data.isEmpty && k.data.all (fun c => c.isAlphanum || c == '_')

/-- The three declared value types of spec 4.2. -/
inductive ValType where
  | address
  | amount
  | opaqueJson
deriving DecidableEq

/-- Modelled from the spec: declared value type per register key.  The
address- and amount-typed keys are those of the swap flow
(PLAN-register-system-v2.md phase 3); everything else is an opaque JSON
blob (pre-built transaction objects, quote results). -/
def keyType (k : String) : ValType :=
  if k = "wallet_address" then .address
  else if k = "sell_token" then .address
  else if k = "buy_token" then .address
  else if k = "token_address" then .address
  else if k = "sell_amount" then .amount
  else .opaqueJson

/-- Modelled from the spec: the pure validator keyed by declared value
type (spec 4.2). -/
def validator : ValType → Value → Bool
  | .address, .str s => isAddressString s
  | .address, _ => false
  | .amount, .intStr s => isAmountString s
  | .amount, .str s => isAmountString s
  | .amount, _ => false
  | .opaqueJson, _ => true

/-- Allowed write origins for a register key (spec: GuardPolicy entry). -/
inductive Origins where
  | any
  | only (ts : List String)
deriving DecidableEq

/-- Modelled from the spec: the static guard-policy table.  The guarded
keys and their originating tools are taken from the swap skill
(skills/swap.md): sell_token and buy_token may only be written by
token_lookup, wallet_address only by local_burner_wallet, and the
swap_quote result register only by x402_fetch; every other key is
agent-settable. -/
def guardPolicy (k : String) : Origins :=
  if k = "sell_token" then .only ["token_lookup"]
  else if k = "buy_token" then .only ["token_lookup"]
  else if k = "wallet_address" then .only ["local_burner_wallet"]
  else if k = "swap_quote" then .only ["x402_fetch"]
  else .any

/-- Does the guard policy allow this origin tool to write the key? -/
def originAllowed : Origins → String → Bool
  | .any, _ => true
  | .only ts, t => ts.contains t

/-- The originating tools named in a ForbiddenRegisterWrite error, so
the agent can self-correct (spec 4.3). -/
def allowedList : Origins → List String
  | .any => []
  | .only ts => ts

/-- Errors surfaced by the register store (spec 7 taxonomy, store part). -/
inductive RegErr where
  | invalidKey
  | invalidValueFormat
  | forbiddenRegisterWrite (allowed : List String)
deriving DecidableEq

/-- Modelled from the spec: set — validate the key charset, consult the
guard policy for the origin, run the validator for the key's declared
type, then overwrite atomically (spec 4.1/4.2).  On any failure the
result is an error and no store is produced. -/
def RegisterStore.setChecked (s : RegisterStore) (k : String) (v : Value)
    (origin : String) (now : Nat) : Except RegErr RegisterStore :=
  if !validKeyName k then .error .invalidKey
  else if !originAllowed (guardPolicy k) origin then
    .error (.forbiddenRegisterWrite (allowedList (guardPolicy k)))
  else if !validator (keyType k) v then .error .invalidValueFormat
  else .ok (⟨k, v, origin, now⟩ :: s)

/-- Modelled from the spec: the total write operation at the tool level —
returns the error (if any) together with the resulting store, which on
failure is the input store untouched. -/
def RegisterStore.applySet (s : RegisterStore) (k : String) (v : Value)
    (origin : String) (now : Nat) : Option RegErr × RegisterStore :=
  match s.setChecked k v origin now with
  | .ok s' => (none, s')
  | .error e => (some e, s)

/-- Modelled from the spec: the generic register_set tool
(PLAN-register-system-v2.md phase 2) writes with its own tool name as
origin, so the guard policy sees the generic origin. -/
def registerSetTool (s : RegisterStore) (k : String) (v : Value)
    (now : Nat) : Option RegErr × RegisterStore :=
  s.applySet k v "register_set" now

/-- Serialize a JSON value (for verbatim substitution of a JSON-valued
register into an outbound request). -/
def Jval.render : Jval → String
  | .null => "null"
  | .bool true => "true"
  | .bool false => "false"
  | .num n => toString n
  | .str s => "\"" ++ s ++ "\""
  | .arr xs =>
    "[" ++ String.intercalate "," (xs.attach.map (fun x => Jval.render x.1)) ++ "]"
  | .obj fs =>
    "\x7b" ++ String.intercalate ","
      (fs.attach.map (fun f =>
        "\"" ++ f.1.1 ++ "\":" ++ Jval.render f.1.2)) ++ "\x7d"
termination_by j => sizeOf j
decreasing_by
  · simp_wf
    have h := List.sizeOf_lt_of_mem x.2
    omega
  · simp_wf
    have h := List.sizeOf_lt_of_mem f.2
    have h2 : sizeOf f.1 = 1 + sizeOf f.1.1 + sizeOf f.1.2 := by
      cases f.1 with
      | mk a b => simp
    omega

/-- The string a register value contributes when substituted verbatim
into a request query parameter. -/
def Value.asParamString : Value → String
  | .str s => s
  | .intStr s => s
  | .json j => j.render

/-- Modelled from the spec: a request template — method, URL pattern and
a mapping from query-parameter name to the register key whose value is
substituted (spec 6, preset catalog entry shape). -/
structure RequestTemplate where
  method : String
  url_pattern : String
  query_params : List (String × String)

/-- Modelled from the spec: a preset definition (spec data model:
name, required registers, request template, result register). -/
structure PresetDefinition where
  name : String
  required_registers : List String
  template : RequestTemplate
  result_register : Option String

/-- Chain id derived from the network parameter of the invocation
(PLAN-register-system-v2.md: chainId for network; base is 8453). -/
def chainIdFor (network : String) : Nat :=
  if network = "base" then 8453
  else if network = "mainnet" then 1
  else 0

/-- Modelled from the spec: the swap_quote preset
(PLAN-register-system-v2.md phase 3) — reads wallet_address, sell_token,
buy_token and sell_amount, builds the 0x quote request, and caches the
result in the swap_quote register. -/
def swapQuotePreset : PresetDefinition :=
  { name := "swap_quote"
    required_registers := ["wallet_address", "sell_token", "buy_token", "sell_amount"]
    template :=
      { method := "GET"
        url_pattern := "https://quoter.defirelay.com/swap/allowance-holder/quote"
        query_params :=
          [("sellToken", "sell_token"), ("buyToken", "buy_token"),
           ("sellAmount", "sell_amount"), ("taker", "wallet_address")] }
    result_register := some "swap_quote" }

/-- Modelled from the spec: the token_price preset
(PLAN-register-system-v2.md phase 3) — reads token_address. -/
def tokenPricePreset : PresetDefinition :=
  { name := "token_price"
    required_registers := ["token_address"]
    template :=
      { method := "GET"
        url_pattern := "https://quoter.defirelay.com/price"
        query_params := [("tokenAddress", "token_address")] }
    result_register := none }

/-- Modelled from the spec: the static preset catalog, immutable after
startup. -/
def presetCatalog : List PresetDefinition := [swapQuotePreset, tokenPricePreset]

/-- Catalog lookup by preset name. -/
def findPreset (n : String) : Option PresetDefinition :=
  presetCatalog.find? (fun p => p.name == n)

/-- Preset resolution errors (spec 7: PresetRequirementUnmet lists all
missing keys). -/
inductive PresetError where
  | unknownPreset (n : String)
  | requirementUnmet (missing : List String)
deriving DecidableEq

/-- A fully resolved outbound request, entirely determined by the
template, the network parameter and the register snapshot. -/
structure ResolvedRequest where
  method : String
  url : String
  query : List (String × String)

/-- Modelled from the spec: the preset resolver (spec 4.4) — look up the
definition, collect every absent required register (not just the first),
fail closed with the full missing list, otherwise substitute every
referenced register value verbatim into the template. -/
def resolvePreset (n : String) (network : String) (s : RegisterStore) :
    Except PresetError ResolvedRequest :=
  match findPreset n with
  | none => .error (.unknownPreset n)
  | some pd =>
    let missing := pd.required_registers.filter (fun k => (s.get k).isNone)
    if missing.isEmpty then
      .ok { method := pd.template.method
            url := pd.template.url_pattern
            query :=
              ("chainId", toString (chainIdFor network)) ::
                pd.template.query_params.map (fun q =>
                  (q.1, match s.get q.2 with
                        | some e => e.value.asParamString
                        | none => "")) }
    else .error (.requirementUnmet missing)

/-- Modelled from the spec: a tool declaration — name, sensitivity flag
and the declared raw-parameter shape (spec 4.5 stage 1 rejects unknown
fields).  For a sensitive tool the sensitive field names remain part of
the declared shape so that supplying them alongside a register reference
is reported as the dedicated conflict error of stage 2 (spec 3:
"presence of both is a hard validation failure"), not as an
unknown-field schema error. -/
structure ToolDecl where
  name : String
  sensitive : Bool
  fields : List String

/-- Modelled from the spec: the raw sensitive field names a sensitive
tool must never accept directly (spec 3: to, data, value, gas, token
addresses, amounts). -/
def sensitiveFields : List String :=
  ["to", "data", "value", "gas", "token_address", "amount"]

/-- Modelled from the spec: a tool invocation after the dispatch layer
separates the reserved fields cache_as, from_register and preset from
the payload forwarded to the tool (spec 6). -/
structure ToolInvocation where
  tool_name : String
  raw_params : List (String × Jval)
  cache_as : Option String
  from_register : Option String
  preset : Option String

/-- Does a raw parameter set contain any raw sensitive field? -/
def hasRawSensitive (ps : List (String × Jval)) : Bool :=
  ps.any (fun p => sensitiveFields.contains p.1)

/-- Stage 1 schema check: every raw parameter field is declared by the
tool (spec 4.5 stage 1). -/
def schemaOk (decl : ToolDecl) (inv : ToolInvocation) : Bool :=
  inv.raw_params.all (fun p => decl.fields.contains p.1)

/-- The fully resolved input handed to the external tool executor:
the stripped raw parameters, the register-derived value (if
from_register was supplied) and the resolved preset request (if preset
was supplied). -/
structure ResolvedInput where
  params : List (String × Jval)
  regValue : Option Value
  request : Option ResolvedRequest

/-- Tool-gate errors (spec 7 taxonomy, gate part). -/
inductive GateError where
  | schemaViolation
  | toolRequiresRegister
  | conflictingRawAndRegisterParams
  | registerNotFound (k : String)
  | presetFailed (e : PresetError)
  | executorFailure (msg : String)

/-- Convert an executor result into a register value for caching: a
JSON string caches as a plain string (token_lookup caches the bare
address string), anything else as an opaque JSON blob. -/
def jvalToValue : Jval → Value
  | .str s => .str s
  | j => .json j

/-- The network raw parameter of an invocation, used by the preset URL
builder for the chain id. -/
def networkOf (inv : ToolInvocation) : String :=
  match inv.raw_params.find? (fun p => p.1 == "network") with
  | some (_, Jval.str s) => s
  | _ => ""

/-- Stages 4 and 5 of the Tool Gate: delegate to the external executor
(the only stage with real-world side effects) and, only if execution
succeeded and a cache_as directive is present, write the result into
the store under the invoking tool's name as origin; a rejected cache
write leaves the store untouched. -/
def execAndCache (decl : ToolDecl) (inv : ToolInvocation) (s : RegisterStore)
    (exec : ResolvedInput → Except String Jval) (now : Nat)
    (ri : ResolvedInput) : Except GateError Jval × RegisterStore :=
  match exec ri with
  | .error m => (.error (.executorFailure m), s)
  | .ok j =>
    match inv.cache_as with
    | none => (.ok j, s)
    | some ck =>
      match s.setChecked ck (jvalToValue j) decl.name now with
      | .ok s' => (.ok j, s')
      | .error _ => (.ok j, s)

/-- Modelled from the spec: the Tool Gate state machine (spec 4.5),
stages in order: (1) schema check, (2) sensitivity check, (3) register
and preset resolution, (4) execution by the external executor — the only
stage with real-world side effects, (5) caching via cache_as.  Every
failure returns the input store untouched; the store is only written in
stage 5, after execution succeeded. -/
def toolGate (decl : ToolDecl) (inv : ToolInvocation) (s : RegisterStore)
    (exec : ResolvedInput → Except String Jval) (now : Nat) :
    Except GateError Jval × RegisterStore :=
  if !schemaOk decl inv then (.error .schemaViolation, s)
  else if decl.sensitive && inv.from_register.isNone && inv.preset.isNone then
    (.error .toolRequiresRegister, s)
  else if decl.sensitive && hasRawSensitive inv.raw_params then
    (.error .conflictingRawAndRegisterParams, s)
  else
    let regRes : Except GateError (Option Value) :=
      match inv.from_register with
      | none => .ok none
      | some k =>
        match s.get k with
        | some e => .ok (some e.value)
        | none => .error (.registerNotFound k)
    match regRes with
    | .error e => (.error e, s)
    | .ok regVal =>
      let presetRes : Except GateError (Option ResolvedRequest) :=
        match inv.preset with
        | none => .ok none
        | some n =>
          match resolvePreset n (networkOf inv) s with
          | .ok r => .ok (some r)
          | .error e => .error (.presetFailed e)
      match presetRes with
      | .error e => (.error e, s)
      | .ok req => execAndCache decl inv s exec now ⟨inv.raw_params, regVal, req⟩

/-- Modelled from the spec: the web3_tx tool declaration — flagged
sensitive; from_register is required and the raw transaction fields are
forbidden (PLAN-register-system.md: from_register is now REQUIRED). -/
def web3TxDecl : ToolDecl :=
  ⟨"web3_tx", true, ["to", "data", "value", "gas", "max_fee_per_gas", "network"]⟩

/-- Modelled from the spec: the token_lookup tool declaration
(skills/swap.md) — not sensitive; caches the looked-up token address
via cache_as. -/
def tokenLookupDecl : ToolDecl :=
  ⟨"token_lookup", false, ["symbol", "network"]⟩

/-- Modelled from the spec: the x402_fetch tool declaration
(PLAN-register-system-v2.md phase 3) — preset-driven quote fetcher. -/
def x402FetchDecl : ToolDecl :=
  ⟨"x402_fetch", false, ["url", "jq_filter", "network"]⟩

/-- Modelled from the spec: the map from session id to that session's
private register store (spec data model: a Session owns exactly one
Register Store instance). -/
def SessionMap := String → RegisterStore

/-- The state of a fresh process: every session has an empty store. -/
def SessionMap.empty : SessionMap := fun _ => RegisterStore.empty

/-- Modelled from the spec: a register write performed inside one
session touches only that session's store; a rejected write leaves even
that store unchanged. -/
def SessionMap.setInSession (m : SessionMap) (sid : String) (k : String)
    (v : Value) (origin : String) (now : Nat) : SessionMap :=
  fun t => if t = sid then ((m sid).applySet k v origin now).2 else m t

/-- An observable event of the session-lane manager
(OPENCLAW_AUDIT_AND_UPGRADE_PLAN.md, SessionLaneManager): an invocation
acquires its session's lane, runs its gate stages 1–5 while holding it,
and releases it.  The invocation id is globally unique per invocation. -/
inductive LaneEvent where
  | acquire (sid : String) (inv : Nat)
  | stage (sid : String) (inv : Nat) (n : Nat)
  | release (sid : String) (inv : Nat)
deriving DecidableEq

/-- The lane manager's bookkeeping: which invocation currently holds
each session's lane, and which (session, invocation) pairs have already
acquired once (a LaneGuard is scoped: each invocation acquires exactly
once and never re-enters). -/
structure LaneState where
  holders : String → Option Nat
  started : List (String × Nat)

/-- The initial lane state: no lane held, nothing started. -/
def LaneState.init : LaneState := ⟨fun _ => none, []⟩

/-- Modelled from the spec: one admissible step of the lane manager.
Acquiring requires the session's binary semaphore to be free and the
invocation to be fresh; a gate stage or a release requires the acting
invocation to hold its session's lane.  Inadmissible events have no
successor state. -/
def laneStep (σ : LaneState) : LaneEvent → Option LaneState
  | .acquire sid i =>
    if σ.holders sid = none ∧ (sid, i) ∉ σ.started then
      some ⟨fun t => if t = sid then some i else σ.holders t, (sid, i) :: σ.started⟩
    else none
  | .stage sid i _ =>
    if σ.holders sid = some i then some σ else none
  | .release sid i =>
    if σ.holders sid = some i then
      some ⟨fun t => if t = sid then none else σ.holders t, σ.started⟩
    else none

/-- Run a trace of lane events from a state; none if some event was
inadmissible under the lane discipline. -/
def laneRun (σ : LaneState) : List LaneEvent → Option LaneState
  | [] => some σ
  | e :: tr => (laneStep σ e).bind fun σ' => laneRun σ' tr

/-- The preset-driven request builder of the x402_fetch tool: only the
preset name and the network raw parameter feed the resolver; no other
raw parameter of the invocation can influence the built request. -/
def x402ResolvePreset (inv : ToolInvocation) (s : RegisterStore) :
    Option (Except PresetError ResolvedRequest) :=
  inv.preset.map (fun n => resolvePreset n (networkOf inv) s)

/-- A register snapshot after the four cache/set steps of the swap skill
(skills/swap.md): wallet_address from local_burner_wallet, sell_token
and buy_token from token_lookup, sell_amount from register_set. -/
def swapReadyStore : RegisterStore :=
  [⟨"sell_amount", Value.intStr "100000000000000", "register_set", 3⟩,
   ⟨"buy_token", Value.str "0x833589fCD6eDb6E08f4c7C32D4f71b54bdA02913", "token_lookup", 2⟩,
   ⟨"sell_token", Value.str "0xEeeeeEeeeEeEeeEeEeEeeEEEeeeeEeeeeeeeEEeE", "token_lookup", 1⟩,
   ⟨"wallet_address", Value.str "0x1234567890abcdef1234567890abcdef12345678",
     "local_burner_wallet", 0⟩]

/-- The agent-composed ETH-transfer transaction object of the transfer
skill (skills/transfer.md step 2): the agent itself types the raw
sensitive fields to, value, data and gas into the json_value parameter
of register_set. -/
def transferTxJson : Jval :=
  .obj [("to", .str "0x1234567890abcdef1234567890abcdef12345678"),
        ("value", .str "10000000000000000"),
        ("data", .str "0x"),
        ("gas", .str "21000")]

/-- An executor that carries out the transaction handed to it through
the register reference, reporting back exactly the parameters it
executed with. -/
def echoRegisterExec : ResolvedInput → Except String Jval :=
  fun ri =>
    match ri.regValue with
    | some (Value.json j) => .ok j
    | _ => .error "no register-derived transaction"

/-- Lookup after a fresh write finds the fresh entry at the head. -/
theorem get_cons_self (s : RegisterStore) (k : String) (v : Value)
    (origin : String) (now : Nat) :
    RegisterStore.get (⟨k, v, origin, now⟩ :: s) k = some ⟨k, v, origin, now⟩ := by
  simp [RegisterStore.get, List.find?]

/-- Every guarded key of the static policy is well-formed and does not
admit the generic register_set origin. -/
theorem guardPolicy_only_facts (k : String) (ts : List String)
    (h : guardPolicy k = Origins.only ts) :
    ts.contains "register_set" = false ∧ validKeyName k = true := by
  unfold guardPolicy at h
  split at h
  · next hk => cases h; subst hk; exact ⟨by decide, by decide⟩
  · split at h
    · next hk => cases h; subst hk; exact ⟨by decide, by decide⟩
    · split at h
      · next hk => cases h; subst hk; exact ⟨by decide, by decide⟩
      · split at h
        · next hk => cases h; subst hk; exact ⟨by decide, by decide⟩
        · cases h

/-- C4.  Round-trip: for every register key, every origin the guard
policy allows to write it, and every value the key's validator accepts,
a successful set followed by get returns an entry holding exactly the
written value (with its origin metadata). -/
theorem register_set_get_roundtrip (s : RegisterStore) (k : String)
    (v : Value) (origin : String) (now : Nat) (s' : RegisterStore)
    (h : s.setChecked k v origin now = Except.ok s') :
    s'.get k = some ⟨k, v, origin, now⟩ := by
  unfold RegisterStore.setChecked at h
  split at h
  · cases h
  · split at h
    · cases h
    · split at h
      · cases h
      · cases h; exact get_cons_self ..

/-- Witness for C4: writing the USDC token address into sell_token from
its declared origin tool and reading it back. -/
theorem register_set_get_roundtrip_witness :
    RegisterStore.get
      [⟨"sell_token", Value.str "0x833589fCD6eDb6E08f4c7C32D4f71b54bdA02913",
        "token_lookup", 3⟩] "sell_token" =
      some ⟨"sell_token", Value.str "0x833589fCD6eDb6E08f4c7C32D4f71b54bdA02913",
        "token_lookup", 3⟩ :=
  register_set_get_roundtrip RegisterStore.empty "sell_token"
    (Value.str "0x833589fCD6eDb6E08f4c7C32D4f71b54bdA02913") "token_lookup" 3 _ rfl

/-- C6.  Atomicity of set on failure: a validator rejection yields
InvalidValueFormat and a guard rejection yields ForbiddenRegisterWrite
naming the allowed origins, and in both cases the store returned by the
write operation is exactly the store before the call — a failed write
never mutates the store, not even partially. -/
theorem set_failure_atomic (s : RegisterStore) (k : String) (v : Value)
    (origin : String) (now : Nat) :
    (validKeyName k = true → originAllowed (guardPolicy k) origin = true →
      validator (keyType k) v = false →
      s.applySet k v origin now = (some RegErr.invalidValueFormat, s)) ∧
    (∀ ts, guardPolicy k = Origins.only ts → ts.contains origin = false →
      validKeyName k = true →
      s.applySet k v origin now = (some (RegErr.forbiddenRegisterWrite ts), s)) := by
  constructor
  · intro hk hg hv
    unfold RegisterStore.applySet RegisterStore.setChecked
    rw [hk, hg, hv]
    simp
  · intro ts hp hc hk
    have hg : originAllowed (guardPolicy k) origin = false := by
      rw [hp]; simpa [originAllowed] using hc
    unfold RegisterStore.applySet RegisterStore.setChecked
    rw [hk, hg, hp]
    simp [allowedList]

/-- Witness for C6: a malformed address written to sell_token by its own
origin tool is rejected as InvalidValueFormat with the store unchanged,
and a generic-origin write to sell_token is rejected as
ForbiddenRegisterWrite with the store unchanged. -/
theorem set_failure_atomic_witness :
    RegisterStore.applySet RegisterStore.empty "sell_token"
      (Value.str "not-an-address") "token_lookup" 0 =
      (some RegErr.invalidValueFormat, RegisterStore.empty) ∧
    RegisterStore.applySet RegisterStore.empty "sell_token"
      (Value.str "0x833589fCD6eDb6E08f4c7C32D4f71b54bdA02913") "register_set" 0 =
      (some (RegErr.forbiddenRegisterWrite ["token_lookup"]), RegisterStore.empty) :=
  ⟨(set_failure_atomic RegisterStore.empty "sell_token"
      (Value.str "not-an-address") "token_lookup" 0).1 (by decide) (by decide) (by decide),
   (set_failure_atomic RegisterStore.empty "sell_token"
      (Value.str "0x833589fCD6eDb6E08f4c7C32D4f71b54bdA02913") "register_set" 0).2
      ["token_lookup"] (by decide) (by decide) (by decide)⟩

/-- C2.  For every guarded key (allowed_origins not any), a write via the
generic register_set tool always fails with ForbiddenRegisterWrite
naming the declared originating tools, whatever the value; and a write
from a declared origin tool always succeeds given a valid key name and a
value accepted by the key's validator. -/
theorem guarded_key_write_policy (s : RegisterStore) (k : String)
    (ts : List String) (v : Value) (now : Nat)
    (hp : guardPolicy k = Origins.only ts) :
    registerSetTool s k v now = (some (RegErr.forbiddenRegisterWrite ts), s) ∧
    (∀ origin, ts.contains origin = true → validator (keyType k) v = true →
      s.applySet k v origin now = (none, ⟨k, v, origin, now⟩ :: s)) := by
  obtain ⟨hnogen, hkname⟩ := guardPolicy_only_facts k ts hp
  constructor
  · have hg : originAllowed (guardPolicy k) "register_set" = false := by
      rw [hp]; simpa [originAllowed] using hnogen
    unfold registerSetTool RegisterStore.applySet RegisterStore.setChecked
    rw [hkname, hg, hp]
    simp [allowedList]
  · intro origin horig hv
    have hg : originAllowed (guardPolicy k) origin = true := by
      rw [hp]; simpa [originAllowed] using horig
    unfold RegisterStore.applySet RegisterStore.setChecked
    rw [hkname, hg, hv]
    simp

/-- Witness for C2: register_set cannot write sell_token (the error
names token_lookup), while token_lookup itself can. -/
theorem guarded_key_write_policy_witness :
    registerSetTool RegisterStore.empty "sell_token"
      (Value.str "0x833589fCD6eDb6E08f4c7C32D4f71b54bdA02913") 7 =
      (some (RegErr.forbiddenRegisterWrite ["token_lookup"]), RegisterStore.empty) ∧
    RegisterStore.applySet RegisterStore.empty "sell_token"
      (Value.str "0x833589fCD6eDb6E08f4c7C32D4f71b54bdA02913") "token_lookup" 7 =
      (none, [⟨"sell_token", Value.str "0x833589fCD6eDb6E08f4c7C32D4f71b54bdA02913",
        "token_lookup", 7⟩]) :=
  ⟨(guarded_key_write_policy RegisterStore.empty "sell_token" ["token_lookup"]
      (Value.str "0x833589fCD6eDb6E08f4c7C32D4f71b54bdA02913") 7 (by decide)).1,
   (guarded_key_write_policy RegisterStore.empty "sell_token" ["token_lookup"]
      (Value.str "0x833589fCD6eDb6E08f4c7C32D4f71b54bdA02913") 7 (by decide)).2
      "token_lookup" (by decide) (by decide)⟩

/-- C8.  Session isolation: a register write performed in one session
leaves the register store of every other session untouched, so no value
ever becomes observable via get in a different session. -/
theorem session_isolation (m : SessionMap) (s1 s2 k k' : String)
    (v : Value) (origin : String) (now : Nat) (h : s1 ≠ s2) :
    RegisterStore.get (m.setInSession s1 k v origin now s2) k' =
      RegisterStore.get (m s2) k' := by
  unfold SessionMap.setInSession
  rw [if_neg (Ne.symm h)]

/-- Witness for C8: a transfer_tx write in session alice is invisible to
session bob. -/
theorem session_isolation_witness :
    RegisterStore.get
      (SessionMap.setInSession SessionMap.empty "alice" "transfer_tx"
        (Value.json Jval.null) "register_set" 0 "bob") "transfer_tx" =
      RegisterStore.get (SessionMap.empty "bob") "transfer_tx" :=
  session_isolation SessionMap.empty "alice" "bob" "transfer_tx" "transfer_tx"
    (Value.json Jval.null) "register_set" 0 (by decide)

/-- C3.  Exhaustive missing-register reporting: whenever at least one
required register of a preset is absent, resolution fails with
PresetRequirementUnmet carrying the filter of all absent required keys,
and that list contains every absent required key — not merely the first
one encountered. -/
theorem preset_missing_exhaustive (n network : String) (s : RegisterStore)
    (pd : PresetDefinition) (hpd : findPreset n = some pd)
    (k0 : String) (hk0 : k0 ∈ pd.required_registers) (h0 : s.get k0 = none) :
    resolvePreset n network s =
      Except.error (PresetError.requirementUnmet
        (pd.required_registers.filter (fun k => (s.get k).isNone))) ∧
    ∀ k, k ∈ pd.required_registers → s.get k = none →
      k ∈ pd.required_registers.filter (fun k => (s.get k).isNone) := by
  have hmem : k0 ∈ pd.required_registers.filter (fun k => (s.get k).isNone) :=
    List.mem_filter.mpr ⟨hk0, by simp [h0]⟩
  have hne : (pd.required_registers.filter (fun k => (s.get k).isNone)).isEmpty = false :=
    List.isEmpty_eq_false.mpr (fun hnil => by rw [hnil] at hmem; cases hmem)
  constructor
  · unfold resolvePreset
    rw [hpd]
    simp only [hne, Bool.false_eq_true, if_false]
  · intro k hk hkn
    exact List.mem_filter.mpr ⟨hk, by simp [hkn]⟩

/-- Witness for C3: resolving swap_quote against a store holding only
wallet_address reports all three absent keys, in catalog order. -/
theorem preset_missing_exhaustive_witness :
    resolvePreset "swap_quote" "base"
      [⟨"wallet_address", Value.str "0x1234567890abcdef1234567890abcdef12345678",
        "local_burner_wallet", 0⟩] =
      Except.error (PresetError.requirementUnmet
        ["sell_token", "buy_token", "sell_amount"]) :=
  (preset_missing_exhaustive "swap_quote" "base"
      [⟨"wallet_address", Value.str "0x1234567890abcdef1234567890abcdef12345678",
        "local_burner_wallet", 0⟩]
      swapQuotePreset rfl "sell_token" (by decide) rfl).1

/-- C5.  Preset resolution is a deterministic pure function of the
preset definition and the register snapshot: two invocations naming the
same preset over the same network resolve to identical requests against
an unchanged store, whatever their other raw parameters (no
agent-supplied override), and every referenced register value is
substituted verbatim into the resulting query. -/
theorem preset_resolution_pure (inv1 inv2 : ToolInvocation) (n : String)
    (s : RegisterStore)
    (h1 : inv1.preset = some n) (h2 : inv2.preset = some n)
    (hn : networkOf inv1 = networkOf inv2) :
    x402ResolvePreset inv1 s = x402ResolvePreset inv2 s ∧
    (∀ pd p rk e req, findPreset n = some pd →
      (p, rk) ∈ pd.template.query_params → s.get rk = some e →
      resolvePreset n (networkOf inv1) s = Except.ok req →
      (p, e.value.asParamString) ∈ req.query) := by
  constructor
  · unfold x402ResolvePreset
    rw [h1, h2, hn]
  · intro pd p rk e req hpd hq hget hres
    simp only [resolvePreset, hpd] at hres
    split at hres
    · injection hres with h
      subst h
      refine List.mem_cons_of_mem _ ?_
      refine List.mem_map.mpr ⟨(p, rk), hq, ?_⟩
      simp [hget]
    · cases hres

/-- Witness for C5: with the full swap registers present, two
invocations differing in every non-reserved raw parameter resolve
swap_quote to the same request, and the cached sell_amount appears in it
verbatim. -/
theorem preset_resolution_pure_witness :
    x402ResolvePreset
      ⟨"x402_fetch", [("network", Jval.str "base")], some "swap_quote",
        none, some "swap_quote"⟩ swapReadyStore =
      x402ResolvePreset
        ⟨"x402_fetch",
          [("network", Jval.str "base"), ("url", Jval.str "https://attacker.example")],
          none, none, some "swap_quote"⟩ swapReadyStore ∧
    (∀ req, resolvePreset "swap_quote"
        (networkOf ⟨"x402_fetch", [("network", Jval.str "base")], some "swap_quote",
          none, some "swap_quote"⟩) swapReadyStore = Except.ok req →
      ("sellAmount", "100000000000000") ∈ req.query) := by
  have h := preset_resolution_pure
    ⟨"x402_fetch", [("network", Jval.str "base")], some "swap_quote",
      none, some "swap_quote"⟩
    ⟨"x402_fetch",
      [("network", Jval.str "base"), ("url", Jval.str "https://attacker.example")],
      none, none, some "swap_quote"⟩
    "swap_quote" swapReadyStore rfl rfl rfl
  refine ⟨h.1, fun req hreq => ?_⟩
  exact h.2 swapQuotePreset "sellAmount" "sell_amount"
    ⟨"sell_amount", Value.intStr "100000000000000", "register_set", 3⟩ req
    rfl (by decide) rfl hreq

/-- C1.  A sensitive tool invoked with raw sensitive fields among its
(schema-conforming) parameters and no from_register fails in stage 2
with ToolRequiresRegister (when no preset is given either), and
supplying both a register reference and raw sensitive fields fails with
ConflictingRawAndRegisterParams; in both cases the outcome is the same
for every executor — stage 4 is never reached — and the store is
returned untouched. -/
theorem sensitive_tool_requires_register (decl : ToolDecl)
    (inv : ToolInvocation) (s : RegisterStore) (now : Nat)
    (hsens : decl.sensitive = true)
    (hschema : schemaOk decl inv = true)
    (hraw : hasRawSensitive inv.raw_params = true) :
    (inv.from_register = none → inv.preset = none →
      ∀ exec, toolGate decl inv s exec now =
        (Except.error GateError.toolRequiresRegister, s)) ∧
    (∀ k, inv.from_register = some k →
      ∀ exec, toolGate decl inv s exec now =
        (Except.error GateError.conflictingRawAndRegisterParams, s)) := by
  constructor
  · intro hfr hpr exec
    unfold toolGate
    rw [hschema, hsens, hfr, hpr]
    simp
  · intro k hfr exec
    unfold toolGate
    rw [hschema, hsens, hfr, hraw]
    simp

/-- Witness for C1: web3_tx with a raw to field and no register
reference is rejected as ToolRequiresRegister, and web3_tx with both
from_register and a raw to field is rejected as
ConflictingRawAndRegisterParams, for an arbitrary executor, before any
execution. -/
theorem sensitive_tool_requires_register_witness :
    (∀ exec, toolGate web3TxDecl
        ⟨"web3_tx", [("to", Jval.str "0x1234567890abcdef1234567890abcdef12345678"),
          ("value", Jval.str "1")], none, none, none⟩
        RegisterStore.empty exec 0 =
      (Except.error GateError.toolRequiresRegister, RegisterStore.empty)) ∧
    (∀ exec, toolGate web3TxDecl
        ⟨"web3_tx", [("to", Jval.str "0x1234567890abcdef1234567890abcdef12345678")],
          none, some "swap_quote", none⟩
        RegisterStore.empty exec 0 =
      (Except.error GateError.conflictingRawAndRegisterParams, RegisterStore.empty)) :=
  ⟨fun exec =>
    (sensitive_tool_requires_register web3TxDecl
      ⟨"web3_tx", [("to", Jval.str "0x1234567890abcdef1234567890abcdef12345678"),
        ("value", Jval.str "1")], none, none, none⟩
      RegisterStore.empty 0 rfl (by decide) (by decide)).1 rfl rfl exec,
   fun exec =>
    (sensitive_tool_requires_register web3TxDecl
      ⟨"web3_tx", [("to", Jval.str "0x1234567890abcdef1234567890abcdef12345678")],
        none, some "swap_quote", none⟩
      RegisterStore.empty 0 rfl (by decide) (by decide)).2 "swap_quote" rfl exec⟩

/-- C7.  Stage ordering: an invocation whose gate outcome is an error of
any stage leaves the register store exactly as it was, so the store
never reflects an in-flight or failed invocation; if the store changed
at all, execution succeeded (the cache_as write of stage 5 is the only
mutation and happens only after stage 4 succeeded); and with no cache_as
directive the store is never touched. -/
theorem gate_no_mutation_before_success (decl : ToolDecl)
    (inv : ToolInvocation) (s : RegisterStore)
    (exec : ResolvedInput → Except String Jval) (now : Nat) :
    ((toolGate decl inv s exec now).2 ≠ s →
      ∃ j, (toolGate decl inv s exec now).1 = Except.ok j) ∧
    (∀ e, (toolGate decl inv s exec now).1 = Except.error e →
      (toolGate decl inv s exec now).2 = s) ∧
    (inv.cache_as = none → (toolGate decl inv s exec now).2 = s) := by
  have htail : ∀ ri : ResolvedInput,
      ((execAndCache decl inv s exec now ri).2 ≠ s →
        ∃ j, (execAndCache decl inv s exec now ri).1 = Except.ok j) ∧
      (∀ e, (execAndCache decl inv s exec now ri).1 = Except.error e →
        (execAndCache decl inv s exec now ri).2 = s) ∧
      (inv.cache_as = none → (execAndCache decl inv s exec now ri).2 = s) := by
    intro ri
    unfold execAndCache
    split
    · simp
    · split
      · simp
      · split
        · refine ⟨fun _ => ⟨_, rfl⟩, ?_, ?_⟩
          · intro e he
            cases he
          · intro hc
            simp_all
        · simp_all
  unfold toolGate
  repeat' split
  all_goals first
    | exact htail _
    | simp_all

/-- Witness for C7: a successful token_lookup with cache_as writes the
sell_token register, so the changed store comes with a successful
outcome. -/
theorem gate_no_mutation_before_success_witness :
    ∃ j, (toolGate tokenLookupDecl
        ⟨"token_lookup", [("symbol", Jval.str "USDC"), ("network", Jval.str "base")],
          some "sell_token", none, none⟩
        RegisterStore.empty
        (fun _ => Except.ok (Jval.str "0x833589fCD6eDb6E08f4c7C32D4f71b54bdA02913")) 5).1 =
      Except.ok j :=
  (gate_no_mutation_before_success tokenLookupDecl
      ⟨"token_lookup", [("symbol", Jval.str "USDC"), ("network", Jval.str "base")],
        some "sell_token", none, none⟩
      RegisterStore.empty
      (fun _ => Except.ok (Jval.str "0x833589fCD6eDb6E08f4c7C32D4f71b54bdA02913")) 5).1
    (fun h => List.cons_ne_nil _ _ h)

/-- C10.  The transfer path of skills/transfer.md: transfer_tx is an
agent-settable key, so the generic register_set tool accepts an
agent-composed JSON object carrying the raw sensitive fields to, value,
data and gas; web3_tx invoked with from_register pointing at that key
then reaches execution with exactly that agent-typed transaction as its
effective input — the register pattern on this path only stops the agent
from passing the fields to web3_tx directly, not from composing them. -/
theorem transfer_tx_agent_composed :
    registerSetTool RegisterStore.empty "transfer_tx" (Value.json transferTxJson) 0 =
      (none, [⟨"transfer_tx", Value.json transferTxJson, "register_set", 0⟩]) ∧
    toolGate web3TxDecl
      ⟨"web3_tx", [("max_fee_per_gas", Jval.str "0xf4240"), ("network", Jval.str "base")],
        none, some "transfer_tx", none⟩
      [⟨"transfer_tx", Value.json transferTxJson, "register_set", 0⟩]
      echoRegisterExec 1 =
      (Except.ok transferTxJson,
        [⟨"transfer_tx", Value.json transferTxJson, "register_set", 0⟩]) :=
  ⟨rfl, rfl⟩

/-- Running a concatenated trace decomposes into running the two parts
in sequence. -/
theorem laneRun_append (a b : List LaneEvent) (σ σf : LaneState) :
    laneRun σ (a ++ b) = some σf ↔
      ∃ σm, laneRun σ a = some σm ∧ laneRun σm b = some σf := by
  induction a generalizing σ with
  | nil => simp [laneRun]
  | cons e tr ih =>
    simp only [List.cons_append, laneRun]
    cases laneStep σ e with
    | none => simp
    | some σ1 => simpa using ih σ1

/-- The set of started (session, invocation) pairs only grows along an
admissible trace. -/
theorem laneRun_started_mono (tr : List LaneEvent) (σ σf : LaneState)
    (h : laneRun σ tr = some σf) : ∀ p, p ∈ σ.started → p ∈ σf.started := by
  induction tr generalizing σ with
  | nil =>
    simp only [laneRun] at h
    cases h
    exact fun p hp => hp
  | cons e tr ih =>
    simp only [laneRun] at h
    cases hs : laneStep σ e with
    | none => rw [hs, Option.none_bind] at h; cases h
    | some σ1 =>
      rw [hs, Option.some_bind] at h
      intro p hp
      refine ih σ1 h p ?_
      cases e with
      | acquire sid i =>
        simp only [laneStep] at hs
        split at hs
        · cases hs; exact List.mem_cons_of_mem _ hp
        · cases hs
      | stage sid i n =>
        simp only [laneStep] at hs
        split at hs
        · cases hs; exact hp
        · cases hs
      | release sid i =>
        simp only [laneStep] at hs
        split at hs
        · cases hs; exact hp
        · cases hs

/-- Along an admissible trace, whoever holds a lane has been started:
acquiring records the pair in started, and only acquiring grants the
lane. -/
theorem laneRun_holder_started (tr : List LaneEvent) (σ σf : LaneState)
    (hinv : ∀ s i, σ.holders s = some i → (s, i) ∈ σ.started)
    (h : laneRun σ tr = some σf) :
    ∀ s i, σf.holders s = some i → (s, i) ∈ σf.started := by
  induction tr generalizing σ with
  | nil =>
    simp only [laneRun] at h
    cases h
    exact hinv
  | cons e tr ih =>
    simp only [laneRun] at h
    cases hs : laneStep σ e with
    | none => rw [hs, Option.none_bind] at h; cases h
    | some σ1 =>
      rw [hs, Option.some_bind] at h
      refine ih σ1 ?_ h
      cases e with
      | acquire sid i =>
        simp only [laneStep] at hs
        split at hs
        · cases hs
          intro s i' hh
          by_cases hts : s = sid
          · subst hts
            simp only [if_pos rfl] at hh
            cases hh
            exact List.mem_cons_self _ _
          · simp only [if_neg hts] at hh
            exact List.mem_cons_of_mem _ (hinv s i' hh)
        · cases hs
      | stage sid i n =>
        simp only [laneStep] at hs
        split at hs
        · cases hs; exact hinv
        · cases hs
      | release sid i =>
        simp only [laneStep] at hs
        split at hs
        · cases hs
          intro s i' hh
          by_cases hts : s = sid
          · subst hts
            simp at hh
          · simp only [if_neg hts] at hh
            exact hinv s i' hh
        · cases hs

/-- Once an invocation has started and is not (or no longer) holding its
session's lane, no admissible continuation ever makes it the holder
again: re-acquiring would need the pair to be fresh. -/
theorem laneRun_no_reentry (tr : List LaneEvent) (σ σf : LaneState)
    (s : String) (i : Nat)
    (hstart : (s, i) ∈ σ.started) (hnot : σ.holders s ≠ some i)
    (h : laneRun σ tr = some σf) : σf.holders s ≠ some i := by
  induction tr generalizing σ with
  | nil =>
    simp only [laneRun] at h
    cases h
    exact hnot
  | cons e tr ih =>
    simp only [laneRun] at h
    cases hs : laneStep σ e with
    | none => rw [hs, Option.none_bind] at h; cases h
    | some σ1 =>
      rw [hs, Option.some_bind] at h
      cases e with
      | acquire sid j =>
        simp only [laneStep] at hs
        split at hs
        · next hcond =>
          cases hs
          refine ih _ (List.mem_cons_of_mem _ hstart) ?_ h
          by_cases hts : s = sid
          · subst hts
            simp only [if_pos rfl]
            intro hh
            cases hh
            exact hcond.2 hstart
          · simp only [if_neg hts]
            exact hnot
        · cases hs
      | stage sid j n =>
        simp only [laneStep] at hs
        split at hs
        · cases hs; exact ih _ hstart hnot h
        · cases hs
      | release sid j =>
        simp only [laneStep] at hs
        split at hs
        · cases hs
          refine ih ⟨fun t => if t = sid then none else σ.holders t, σ.started⟩
            hstart ?_ h
          intro hh
          by_cases hts : s = sid
          · subst hts
            simp at hh
          · simp [hts] at hh
            exact hnot hh
        · cases hs

/-- C9.  Per-session serialization: under the lane discipline (a scoped,
once-per-invocation binary semaphore per session), a trace in which a
gate stage of invocation i, then a stage of a different invocation j of
the same session, then again a stage of i occur in that order is
inadmissible — the lane manager rejects it, so two invocations of one
session can never interleave their stage 1–5 execution, and all effects
of one invocation are ordered before the next one's stages. -/
theorem lane_serialization (a b c d : List LaneEvent) (s : String)
    (i j n1 n2 n3 : Nat) (hij : i ≠ j) :
    laneRun LaneState.init
      (a ++ LaneEvent.stage s i n1 :: (b ++ LaneEvent.stage s j n2 ::
        (c ++ LaneEvent.stage s i n3 :: d))) = none := by
  cases hrun : laneRun LaneState.init
      (a ++ LaneEvent.stage s i n1 :: (b ++ LaneEvent.stage s j n2 ::
        (c ++ LaneEvent.stage s i n3 :: d))) with
  | none => rfl
  | some σf =>
    exfalso
    obtain ⟨σ1, ha, h1⟩ := (laneRun_append ..).mp hrun
    simp only [laneRun] at h1
    cases hs1 : laneStep σ1 (LaneEvent.stage s i n1) with
    | none => rw [hs1, Option.none_bind] at h1; cases h1
    | some σ1' =>
      rw [hs1, Option.some_bind] at h1
      simp only [laneStep] at hs1
      split at hs1
      case isFalse => cases hs1
      case isTrue hhold1 =>
        cases hs1
        obtain ⟨σ2, hb, h2⟩ := (laneRun_append ..).mp h1
        simp only [laneRun] at h2
        cases hs2 : laneStep σ2 (LaneEvent.stage s j n2) with
        | none => rw [hs2, Option.none_bind] at h2; cases h2
        | some σ2' =>
          rw [hs2, Option.some_bind] at h2
          simp only [laneStep] at hs2
          split at hs2
          case isFalse => cases hs2
          case isTrue hhold2 =>
            cases hs2
            obtain ⟨σ3, hc, h3⟩ := (laneRun_append ..).mp h2
            have hinit : ∀ s' i', LaneState.init.holders s' = some i' →
                (s', i') ∈ LaneState.init.started := by
              intro s' i' hh
              simp only [LaneState.init] at hh
              cases hh
            have hstart1 : (s, i) ∈ σ1.started :=
              laneRun_holder_started a LaneState.init σ1 hinit ha s i hhold1
            have hstart2 : (s, i) ∈ σ2.started :=
              laneRun_started_mono b σ1 σ2 hb (s, i) hstart1
            have hne2 : σ2.holders s ≠ some i := by
              rw [hhold2]
              intro hh
              cases hh
              exact hij rfl
            have hnot3 : σ3.holders s ≠ some i :=
              laneRun_no_reentry c σ2 σ3 s i hstart2 hne2 hc
            simp only [laneRun] at h3
            cases hs3 : laneStep σ3 (LaneEvent.stage s i n3) with
            | none => rw [hs3, Option.none_bind] at h3; cases h3
            | some σ3' =>
              simp only [laneStep] at hs3
              split at hs3
              case isFalse => cases hs3
              case isTrue hhold3 => exact hnot3 hhold3

/-- Witness for C9: the shortest interleaving — invocation 0 runs a
stage, invocation 1 of the same session runs a stage, invocation 0 runs
another stage — is rejected by the lane manager. -/
theorem lane_serialization_witness :
    laneRun LaneState.init
      ([] ++ LaneEvent.stage "s1" 0 1 :: ([] ++ LaneEvent.stage "s1" 1 1 ::
        ([] ++ LaneEvent.stage "s1" 0 2 :: []))) = none :=
  lane_serialization [] [] [] [] "s1" 0 1 1 1 2 (by decide)

end StarkBot
